import Mathlib

/-!
Verification of the marine eDNA analysis pipeline's quantitative core:
depth-zone classification, diversity metrics, depth-prior adjustment
(`DAG-steps/03_taxonomic_profiling.py`) and environmental normalization
(`DAG-steps/05_marine_normalization.py`).

Floating-point values are modelled exactly: abundances, depths and
salinities as rationals, and the transcendental parts (`np.exp`,
`np.log`) over the reals via `Real.exp` / `Real.log`.
-/

namespace MarineEDNA

/-- Python substring membership `needle in haystack` on character lists. -/
def segOccurs (needle : List Char) : List Char → Bool
  | [] => needle.isEmpty
  | c :: rest => needle.isPrefixOf (c :: rest) || segOccurs needle rest

/-- Python `needle in haystack` for strings. -/
def strContains (needle haystack : String) : Bool :=
  segOccurs needle.toList haystack.toList

/-- The five oceanographic depth zones returned by `get_depth_zone`. -/
inductive DepthZone where
  | euphotic
  | dysphotic
  | bathypelagic
  | abyssopelagic
  | hadalpelagic
deriving DecidableEq, Repr

open DepthZone

/-- `get_depth_zone` from `03_taxonomic_profiling.py` (lines 102-121):
classify a depth in meters into an oceanographic zone. -/
def get_depth_zone (depth_meters : ℚ) : DepthZone :=
  if depth_meters ≤ 200 then euphotic
  else if depth_meters ≤ 1000 then dysphotic
  else if depth_meters ≤ 4000 then bathypelagic
  else if depth_meters ≤ 6000 then abyssopelagic
  else hadalpelagic

/-- `calculate_biomass_correction` from `05_marine_normalization.py`
(lines 70-94), on a single depth (NumPy broadcasts elementwise):
`scale = np.where(depth < 200, 100, 500)`,
`biomass_relative = exp(-depth/scale)`, `correction = 1/biomass_relative`. -/
noncomputable def calculate_biomass_correction (depth : ℚ) : ℝ :=
  let scale : ℚ := if depth < 200 then 100 else 500
  let biomass_relative := Real.exp (-(depth : ℝ) / (scale : ℝ))
  1 / biomass_relative

/-- `calculate_salinity_correction` from `05_marine_normalization.py`
(lines 97-120), on a single salinity:
`efficiency = clip(1 - 0.02*|s - 35|, 0.7, 1.0)`, `correction = 1/efficiency`
(`np.clip(x, lo, hi) = min(max(x, lo), hi)`). -/
def calculate_salinity_correction (salinity : ℚ) : ℚ :=
  let optimal_salinity : ℚ := 35
  let efficiency := 1 - 2/100 * |salinity - optimal_salinity|
  let clipped := min (max efficiency (7/10)) 1
  1 / clipped

/-- The salinity correction exactly as the spec words it:
`1 / clip(1 - 0.02 * |salinity - 35|, 0.7, 1.0)`. -/
def salinity_correction_spec (salinity : ℚ) : ℚ :=
  1 / min (max (1 - 2/100 * |salinity - 35|) (7/10)) 1

/-- The record returned by `calculate_marine_diversity`
(`03_taxonomic_profiling.py`, lines 263-269). The ratio of marine
specialists is named `marine_specialist_share` here. -/
structure DiversityMetrics where
  shannon : ℝ
  simpson : ℚ
  pielou_evenness : ℝ
  richness : ℕ
  marine_specialist_share : ℚ

/-- The marine specialist taxa hardcoded in `calculate_marine_diversity`
(lines 253-256). -/
def marine_specialists : List String :=
  ["SAR11", "Prochlorococcus", "SAR86", "Thaumarchaeota",
   "Marine_Group_II", "SAR324", "Roseobacter"]

/-- `calculate_marine_diversity` from `03_taxonomic_profiling.py`
(lines 221-269). The taxonomic profile is a (taxon, abundance) association
list; zero (and negative) abundances are dropped before Shannon/Simpson,
Pielou evenness is `shannon / log S` when `S > 1` and `0` otherwise, and
the specialist share sums abundances of taxa containing a specialist name. -/
noncomputable def calculate_marine_diversity
    (taxonomic_profile : List (String × ℚ)) : DiversityMetrics :=
  let abundances :=
    (taxonomic_profile.map Prod.snd).filter (fun v => decide (0 < v))
  let shannon : ℝ :=
    -((abundances.map (fun p : ℚ => (p : ℝ) * Real.log (p : ℝ))).sum)
  let simpson : ℚ := 1 - (abundances.map (fun p => p ^ 2)).sum
  let S := abundances.length
  let pielou : ℝ := if 1 < S then shannon / Real.log (S : ℝ) else 0
  let specialist_abundance : ℚ :=
    ((taxonomic_profile.filter
        (fun t => marine_specialists.any (fun s => strContains s t.1))).map
      Prod.snd).sum
  ⟨shannon, simpson, pielou, S, specialist_abundance⟩

/-- The per-taxon multiplier of `apply_depth_priors`
(`03_taxonomic_profiling.py`, lines 148-163): in deep zones phototrophs
are damped by `0.01` and deep-adapted taxa boosted by `1.5`; in the
euphotic zone `Prochlorococcus` is boosted by `1.3`. -/
def adjust_taxon (zone : DepthZone) (taxon : String) (v : ℚ) : ℚ :=
  if zone = bathypelagic ∨ zone = abyssopelagic ∨ zone = hadalpelagic then
    if strContains "Prochlorococcus" taxon || strContains "Synechococcus" taxon then
      v * (1/100)
    else if strContains "deep" taxon.toLower || strContains "bathy" taxon.toLower then
      v * (3/2)
    else v
  else if zone = euphotic then
    if strContains "Prochlorococcus" taxon then v * (13/10) else v
  else v

/-- `apply_depth_priors` from `03_taxonomic_profiling.py` (lines 124-170):
classify the depth, apply the zone's per-taxon multipliers, then
renormalize to sum 1 when the adjusted total is positive (the unused
`config` argument is omitted). -/
def apply_depth_priors (taxonomic_assignments : List (String × ℚ))
    (depth_meters : ℚ) : List (String × ℚ) :=
  let zone := get_depth_zone depth_meters
  let adjusted :=
    taxonomic_assignments.map (fun kv => (kv.1, adjust_taxon zone kv.1 kv.2))
  let total := (adjusted.map Prod.snd).sum
  if 0 < total then adjusted.map (fun kv => (kv.1, kv.2 / total)) else adjusted

/-- The intermediate adjusted (not yet renormalized) assignment list of
`apply_depth_priors`, needed to state what happens when its total is 0. -/
def adjusted_assignments (taxonomic_assignments : List (String × ℚ))
    (depth_meters : ℚ) : List (String × ℚ) :=
  taxonomic_assignments.map
    (fun kv => (kv.1, adjust_taxon (get_depth_zone depth_meters) kv.1 kv.2))

/-- Sample metadata columns used by `normalize_marine_abundances`. -/
structure SampleMeta where
  depth_m : ℚ
  salinity_psu : ℚ

/-- The `correction_factors` dict built by `normalize_marine_abundances`:
a `biomass` entry and a `salinity` entry, each present only when the
selector asks for it. -/
structure CorrectionFactors where
  biomass : Option (List ℝ)
  salinity : Option (List ℚ)

/-- `normalize_marine_abundances` from `05_marine_normalization.py`
(lines 23-67): copy the abundance table, compute biomass factors when the
method is `marine_integrated` or `biomass_only` and salinity factors when
it is `marine_integrated` or `salinity_only`, and return the (unmodified)
copy together with the factors. The two `# Apply correction here`
placeholders in the source perform no operation. -/
noncomputable def normalize_marine_abundances
    (pathway_abundances : List (List ℚ)) (sample_metadata : List SampleMeta)
    (normalization_method : String) :
    List (List ℚ) × CorrectionFactors :=
  let normalized := pathway_abundances
  let biomass :=
    if normalization_method = "marine_integrated" ∨
        normalization_method = "biomass_only" then
      some (sample_metadata.map (fun m => calculate_biomass_correction m.depth_m))
    else none
  let salinity :=
    if normalization_method = "marine_integrated" ∨
        normalization_method = "salinity_only" then
      some (sample_metadata.map (fun m => calculate_salinity_correction m.salinity_psu))
    else none
  (normalized, ⟨biomass, salinity⟩)

/-- A profile of `n` taxa sharing the same relative abundance `1/n`
(the normalized all-equal `AbundanceProfile` of the spec). -/
def equal_profile (names : List String) : List (String × ℚ) :=
  names.map (fun nm => (nm, 1 / names.length))

/-- Unfolding lemma: the biomass correction is `exp(depth/scale)`, because
`1 / exp(-x) = exp x`. -/
theorem biomass_correction_exp (depth : ℚ) :
    calculate_biomass_correction depth =
      Real.exp ((depth : ℝ) / (if depth < 200 then (100 : ℝ) else 500)) := by
  simp only [calculate_biomass_correction]
  split_ifs with h <;> push_cast <;> rw [neg_div, Real.exp_neg, one_div, inv_inv]

/-- Claim C4, counterexample: `get_depth_zone` classifies the negative
depth `-5` as `euphotic` instead of failing with `InvalidInputError`. -/
theorem C4_negative_depth_classified : get_depth_zone (-5) = euphotic := by
  decide

/-- Claim C4, amended: `get_depth_zone` performs no input validation; every
negative depth falls into the `depth <= 200` branch and is classified as
`euphotic`, and no error is ever raised. -/
theorem C4_no_negative_validation (d : ℚ) (h : d < 0) :
    get_depth_zone d = euphotic := by
  unfold get_depth_zone
  rw [if_pos (le_trans h.le (by norm_num))]

/-- Witness for C4 at depth `-1`. -/
theorem C4_no_negative_validation_witness : get_depth_zone (-1) = euphotic :=
  C4_no_negative_validation (-1) (by norm_num)

/-- Claim C5: for every depth `d >= 0`, `get_depth_zone` maps
`d <= 200` to euphotic, `200 < d <= 1000` to dysphotic,
`1000 < d <= 4000` to bathypelagic, `4000 < d <= 6000` to abyssopelagic
and `d > 6000` to hadalpelagic, each band's upper bound inclusive;
in particular the five boundary evaluations of the spec hold. -/
theorem C5_depth_zone_bands (d : ℚ) (hd : 0 ≤ d) :
    ((d ≤ 200 → get_depth_zone d = euphotic) ∧
     (200 < d → d ≤ 1000 → get_depth_zone d = dysphotic) ∧
     (1000 < d → d ≤ 4000 → get_depth_zone d = bathypelagic) ∧
     (4000 < d → d ≤ 6000 → get_depth_zone d = abyssopelagic) ∧
     (6000 < d → get_depth_zone d = hadalpelagic)) ∧
    (get_depth_zone 200 = euphotic ∧ get_depth_zone 1000 = dysphotic ∧
     get_depth_zone 4000 = bathypelagic ∧ get_depth_zone 6000 = abyssopelagic ∧
     get_depth_zone (6000 + 1 / 10000) = hadalpelagic) := by
  refine ⟨⟨fun h1 => ?_, fun h1 h2 => ?_, fun h1 h2 => ?_, fun h1 h2 => ?_,
    fun h1 => ?_⟩, by decide, by decide, by decide, by decide,
    by norm_num [get_depth_zone]⟩ <;> unfold get_depth_zone
  · rw [if_pos h1]
  · rw [if_neg (not_le.mpr (by linarith)), if_pos h2]
  · rw [if_neg (not_le.mpr (by linarith)), if_neg (not_le.mpr (by linarith)),
      if_pos h2]
  · rw [if_neg (not_le.mpr (by linarith)), if_neg (not_le.mpr (by linarith)),
      if_neg (not_le.mpr (by linarith)), if_pos h2]
  · rw [if_neg (not_le.mpr (by linarith)), if_neg (not_le.mpr (by linarith)),
      if_neg (not_le.mpr (by linarith)), if_neg (not_le.mpr (by linarith))]

/-- Witness for C5 at depth `500` (dysphotic band). -/
theorem C5_depth_zone_bands_witness : get_depth_zone 500 = dysphotic :=
  (C5_depth_zone_bands 500 (by norm_num)).1.2.1 (by norm_num) (by norm_num)

/-- Claim C10: the salinity correction factor equals the spec formula
`1 / clip(1 - 0.02 * |salinity - 35|, 0.7, 1.0)` and is symmetric around
35 PSU: `correction (35 + x) = correction (35 - x)` for every `x`. -/
theorem C10_salinity_correction (s x : ℚ) :
    calculate_salinity_correction s = salinity_correction_spec s ∧
    calculate_salinity_correction (35 + x) =
      calculate_salinity_correction (35 - x) := by
  refine ⟨rfl, ?_⟩
  simp only [calculate_salinity_correction]
  rw [show (35 : ℚ) + x - 35 = x by ring, show (35 : ℚ) - x - 35 = -x by ring,
    abs_neg]

/-- Claim C2, counterexample: at depth `0` the biomass correction factor
is `1`, not `1/100` — the code divides by `exp(-d/scale)` alone, so the
constant `100` of the comment's model cancels out. -/
theorem C2_correction_at_zero_is_one :
    calculate_biomass_correction 0 = 1 ∧ (1 : ℝ) ≠ 1 / 100 := by
  constructor
  · rw [biomass_correction_exp]
    norm_num
  · norm_num

/-- Claim C2, amended: for every depth `d >= 0` the biomass correction
factor equals `1 / exp(-d/scale) = exp(d/scale)` with `scale = 100` when
`d < 200` and `500` otherwise (the constant `100` of the relative-biomass
model cancels); in particular at `d = 0` the factor is exactly `1`. -/
theorem C2_biomass_correction_formula (d : ℚ) (h : 0 ≤ d) :
    calculate_biomass_correction d =
      Real.exp ((d : ℝ) / (if d < 200 then (100 : ℝ) else 500)) ∧
    calculate_biomass_correction 0 = 1 := by
  refine ⟨biomass_correction_exp d, ?_⟩
  rw [biomass_correction_exp]
  norm_num

/-- Witness for C2 at depth `150`. -/
theorem C2_biomass_correction_formula_witness :
    calculate_biomass_correction 150 =
      Real.exp ((150 : ℚ) / (if (150 : ℚ) < 200 then (100 : ℝ) else 500)) :=
  (C2_biomass_correction_formula 150 (by norm_num)).1

/-- Claim C6, counterexample: the biomass correction factor is not
strictly increasing across the 200 m scale change: the factor at 200 m,
`exp(2/5)`, is smaller than the factor at 100 m, `exp(1)`. -/
theorem C6_not_monotone_at_boundary :
    calculate_biomass_correction 200 < calculate_biomass_correction 100 := by
  rw [biomass_correction_exp, biomass_correction_exp,
    if_neg (by norm_num : ¬(200 : ℚ) < 200), if_pos (by norm_num : (100 : ℚ) < 200)]
  apply Real.exp_lt_exp.mpr
  norm_num

/-- Claim C6, amended: the biomass correction factor is strictly
increasing in depth within each scale regime — for `0 <= d1 < d2` with
either both depths below 200 m or both at/after 200 m — but it drops at
the 200 m boundary itself. -/
theorem C6_piecewise_strict_mono (d1 d2 : ℚ) (h0 : 0 ≤ d1) (h12 : d1 < d2)
    (hside : d2 < 200 ∨ 200 ≤ d1) :
    calculate_biomass_correction d1 < calculate_biomass_correction d2 := by
  rw [biomass_correction_exp, biomass_correction_exp]
  apply Real.exp_lt_exp.mpr
  rcases hside with h | h
  · rw [if_pos (lt_trans h12 h), if_pos h]
    have : (d1 : ℝ) < (d2 : ℝ) := by exact_mod_cast h12
    linarith
  · rw [if_neg (not_lt.mpr h), if_neg (not_lt.mpr (le_trans h h12.le))]
    have : (d1 : ℝ) < (d2 : ℝ) := by exact_mod_cast h12
    linarith

/-- Witness for C6 on the sub-200 m regime: depths 0 and 100. -/
theorem C6_piecewise_strict_mono_witness :
    calculate_biomass_correction 0 < calculate_biomass_correction 100 :=
  C6_piecewise_strict_mono 0 100 (by norm_num) (by norm_num)
    (Or.inl (by norm_num))

/-- Claim C1: on the table `[[5]]` with one sample at depth 500 m and
salinity 35 PSU under `marine_integrated`, the code computes the biomass
factor `exp 1` and salinity factor `1` but returns the abundance table
unchanged, although multiplying the factors in (as the claim demands)
would change the entry: `5 * (exp 1 * 1) ≠ 5`. -/
theorem C1_factors_never_applied :
    normalize_marine_abundances [[5]] [⟨500, 35⟩] "marine_integrated" =
      ([[5]], ⟨some [Real.exp 1], some [1]⟩) ∧
    (5 : ℝ) * (Real.exp 1 * 1) ≠ 5 := by
  have hb : calculate_biomass_correction 500 = Real.exp 1 := by
    rw [biomass_correction_exp, if_neg (by norm_num : ¬(500 : ℚ) < 200)]
    norm_num
  have hs : calculate_salinity_correction 35 = 1 := by
    simp [calculate_salinity_correction]
  have h1 : (1 : ℝ) < Real.exp 1 := by
    have h := Real.exp_lt_exp.mpr (zero_lt_one (α := ℝ))
    rwa [Real.exp_zero] at h
  constructor
  · simp [normalize_marine_abundances, hb, hs]
  · nlinarith

/-- Claim C3, counterexample: the unknown selector `"bogus"` does not
fail with `ConfigurationError`; `normalize_marine_abundances` returns the
unchanged table and an empty factor dict. -/
theorem C3_unknown_selector_returns :
    normalize_marine_abundances [[1]] [] "bogus" = ([[1]], ⟨none, none⟩) := by
  simp [normalize_marine_abundances]

/-- Claim C3, amended: `normalize_marine_abundances` never raises; the
returned table always equals the input table, and every selector other
than `marine_integrated`, `biomass_only` and `salinity_only` — including
the supposedly valid `temperature_only`, for which no branch exists —
yields the unchanged table with no correction factors at all. -/
theorem C3_unknown_selector_is_noop (table : List (List ℚ))
    (meta : List SampleMeta) (s : String) :
    (normalize_marine_abundances table meta s).1 = table ∧
    (s ≠ "marine_integrated" → s ≠ "biomass_only" → s ≠ "salinity_only" →
      normalize_marine_abundances table meta s = (table, ⟨none, none⟩)) := by
  refine ⟨rfl, fun h1 h2 h3 => ?_⟩
  simp only [normalize_marine_abundances]
  rw [if_neg (by rintro (h | h); exacts [h1 h, h2 h]),
    if_neg (by rintro (h | h); exacts [h1 h, h3 h])]

/-- Witness for C3 at the selector `"temperature_only"`. -/
theorem C3_unknown_selector_is_noop_witness :
    normalize_marine_abundances [[2]] [] "temperature_only" =
      ([[2]], ⟨none, none⟩) :=
  (C3_unknown_selector_is_noop [[2]] [] "temperature_only").2
    (by decide) (by decide) (by decide)

/-- Dividing every abundance by `t` divides the total by `t`. -/
theorem sum_map_snd_div (l : List (String × ℚ)) (t : ℚ) :
    ((l.map (fun kv => (kv.1, kv.2 / t))).map Prod.snd).sum =
      (l.map Prod.snd).sum / t := by
  induction l with
  | nil => simp
  | cons kv tl ih => simp only [List.map_cons, List.sum_cons, ih, add_div]

/-- Claim C9: for every assignment list and depth, when the
zone-adjusted total is positive, `apply_depth_priors` returns a profile
whose abundances sum exactly to 1; when the adjusted total is exactly 0,
the adjusted profile is returned with renormalization skipped. -/
theorem C9_priors_renormalize (assignments : List (String × ℚ)) (depth : ℚ) :
    (0 < ((adjusted_assignments assignments depth).map Prod.snd).sum →
      ((apply_depth_priors assignments depth).map Prod.snd).sum = 1) ∧
    (((adjusted_assignments assignments depth).map Prod.snd).sum = 0 →
      apply_depth_priors assignments depth =
        adjusted_assignments assignments depth) := by
  constructor
  · intro hpos
    simp only [apply_depth_priors, adjusted_assignments] at hpos ⊢
    rw [if_pos hpos, sum_map_snd_div]
    exact div_self (ne_of_gt hpos)
  · intro h0
    simp only [apply_depth_priors, adjusted_assignments] at h0 ⊢
    rw [if_neg (by rw [h0]; exact lt_irrefl 0)]

/-- Witness for C9: a single dysphotic-zone taxon of abundance 1 is
untouched and already sums to 1. -/
theorem C9_priors_renormalize_witness :
    ((apply_depth_priors [("X", 1)] 500).map Prod.snd).sum = 1 :=
  (C9_priors_renormalize [("X", 1)] 500).1 (by
    have hz : get_depth_zone 500 = dysphotic := by norm_num [get_depth_zone]
    simp [adjusted_assignments, hz, adjust_taxon])

/-- Claim C7, counterexample: on the empty profile the Simpson index
returned by `calculate_marine_diversity` is `1`, not `0` as claimed (and
the returned record carries no distinguished "no data" marker field). -/
theorem C7_empty_simpson_one :
    (calculate_marine_diversity []).simpson = 1 ∧ (1 : ℚ) ≠ 0 := by
  constructor
  · simp [calculate_marine_diversity]
  · norm_num

/-- Claim C7, amended: on a profile with no taxa or all abundances zero,
`calculate_marine_diversity` raises no exception and returns richness 0,
shannon 0, evenness 0 and specialist share 0 — but Simpson index 1, and
the ordinary five-field record with no distinguished "no data" marker. -/
theorem C7_all_zero_profile (profile : List (String × ℚ))
    (hz : ∀ kv ∈ profile, kv.2 = 0) :
    (calculate_marine_diversity profile).shannon = 0 ∧
    (calculate_marine_diversity profile).simpson = 1 ∧
    (calculate_marine_diversity profile).pielou_evenness = 0 ∧
    (calculate_marine_diversity profile).richness = 0 ∧
    (calculate_marine_diversity profile).marine_specialist_share = 0 := by
  have habund :
      (profile.map Prod.snd).filter (fun v => decide (0 < v)) = [] := by
    apply List.filter_eq_nil_iff.mpr
    intro v hv
    rcases List.mem_map.mp hv with ⟨kv, hkv, rfl⟩
    simp [hz kv hkv]
  have hspec :
      ((profile.filter
          (fun t => marine_specialists.any (fun s => strContains s t.1))).map
        Prod.snd).sum = 0 := by
    apply List.sum_eq_zero
    intro x hx
    rcases List.mem_map.mp hx with ⟨kv, hkv, rfl⟩
    exact hz kv (List.mem_of_mem_filter hkv)
  simp only [calculate_marine_diversity, habund, hspec]
  norm_num

/-- Witness for C7 on the one-taxon all-zero profile. -/
theorem C7_all_zero_profile_witness :
    (calculate_marine_diversity [("A", 0)]).simpson = 1 :=
  (C7_all_zero_profile [("A", 0)] (by simp)).2.1

/-- Mapping the abundance out of a constant-abundance profile yields a
replicated list. -/
theorem map_snd_const_profile (l : List String) (c : ℚ) :
    (l.map (fun nm => (nm, c))).map Prod.snd = List.replicate l.length c := by
  induction l with
  | nil => rfl
  | cons a tl ih => simp [ih, List.replicate_succ]

/-- Shannon entropy of `n` equal abundances `1/n` is `log n`. -/
theorem shannon_replicate (n : ℕ) (hn : 0 < n) :
    -(((List.replicate n ((1 : ℚ) / n)).map
        (fun p : ℚ => (p : ℝ) * Real.log (p : ℝ))).sum) = Real.log (n : ℝ) := by
  have hne : ((n : ℝ)) ≠ 0 := by positivity
  rw [List.map_replicate, List.sum_replicate, nsmul_eq_mul]
  push_cast
  simp only [one_div, Real.log_inv]
  field_simp

/-- Claim C8, counterexample: `calculate_marine_diversity` does not
normalize its input, so the unnormalized all-equal profile
`{A:100, B:100, C:100}` yields a negative Shannon value
(`-300·log 100`, not `≈ 1.099`) and Pielou evenness different from 1. -/
theorem C8_unnormalized_profile_not_even :
    (calculate_marine_diversity
        [("A", 100), ("B", 100), ("C", 100)]).pielou_evenness ≠ 1 ∧
    (calculate_marine_diversity
        [("A", 100), ("B", 100), ("C", 100)]).shannon < 0 := by
  have habund : ([(100 : ℚ), 100, 100].filter (fun v => decide (0 < v))) =
      [100, 100, 100] := by
    simp
  have hlog : 0 < Real.log 100 := Real.log_pos (by norm_num)
  have hlog3 : 0 < Real.log 3 := Real.log_pos (by norm_num)
  have hsh : (calculate_marine_diversity
      [("A", 100), ("B", 100), ("C", 100)]).shannon =
      -(300 * Real.log 100) := by
    simp only [calculate_marine_diversity, List.map_cons, List.map_nil,
      habund, List.sum_cons, List.sum_nil]
    push_cast
    ring
  have hpi : (calculate_marine_diversity
      [("A", 100), ("B", 100), ("C", 100)]).pielou_evenness =
      -(300 * Real.log 100) / Real.log 3 := by
    simp only [calculate_marine_diversity, List.map_cons, List.map_nil,
      habund, List.length_cons, List.length_nil, List.sum_cons, List.sum_nil]
    rw [if_pos (by norm_num)]
    push_cast
    ring_nf
  constructor
  · rw [hpi]
    have hneg : -(300 * Real.log 100) / Real.log 3 < 0 :=
      div_neg_of_neg_of_pos (by nlinarith) hlog3
    intro hcontra
    rw [hcontra] at hneg
    exact absurd hneg (by norm_num)
  · rw [hsh]
    nlinarith

/-- Claim C8, amended: on a *normalized* all-equal profile of `n ≥ 2`
taxa, each of abundance `1/n`, `calculate_marine_diversity` returns
richness `n`, Shannon diversity exactly `log n`, and Pielou evenness
exactly `1`; the profile `{A:100, B:100, C:100}` is not normalized and
the code yields different values on it. -/
theorem C8_equal_profile_metrics (names : List String)
    (h : 2 ≤ names.length) :
    (calculate_marine_diversity (equal_profile names)).richness =
      names.length ∧
    (calculate_marine_diversity (equal_profile names)).shannon =
      Real.log (names.length : ℝ) ∧
    (calculate_marine_diversity (equal_profile names)).pielou_evenness = 1 := by
  have hnpos : 0 < names.length := by omega
  have hq : (0 : ℚ) < 1 / (names.length : ℚ) := by positivity
  have habund : ((equal_profile names).map Prod.snd).filter
      (fun v => decide (0 < v)) =
      List.replicate names.length ((1 : ℚ) / (names.length : ℚ)) := by
    rw [equal_profile, map_snd_const_profile]
    apply List.filter_eq_self.mpr
    intro a ha
    rw [List.eq_of_mem_replicate ha]
    simpa using hq
  have h1n : (1 : ℝ) < (names.length : ℝ) := by
    exact_mod_cast (by omega : 1 < names.length)
  have hlogne : Real.log (names.length : ℝ) ≠ 0 := ne_of_gt (Real.log_pos h1n)
  refine ⟨?_, ?_, ?_⟩
  · simp only [calculate_marine_diversity, habund, List.length_replicate]
  · simp only [calculate_marine_diversity, habund]
    exact shannon_replicate names.length hnpos
  · simp only [calculate_marine_diversity, habund, List.length_replicate]
    rw [if_pos (by omega : 1 < names.length), shannon_replicate names.length hnpos]
    exact div_self hlogne

/-- Witness for C8 on the three-taxon profile `{A:1/3, B:1/3, C:1/3}`. -/
theorem C8_equal_profile_metrics_witness :
    (calculate_marine_diversity
        (equal_profile ["A", "B", "C"])).pielou_evenness = 1 :=
  (C8_equal_profile_metrics ["A", "B", "C"] (by decide)).2.2

end MarineEDNA
